import Mathlib

/-!
Verification development for the slack-block-kit-builder repository.

The decoder (`Message.from_payload` and its `_parse_*` helpers) and the three
container classes live in `src/slack_blocksmith/message.py` and are embedded
here function by function.  The sibling modules `blocks`, `composition`,
`elements` and `validators` (the pydantic data classes, their `create`
constructors, the `build` encoders and the `SlackConstraints` table) are part
of the repository but are not present under `src/`; the definitions modelling
them are marked `Modelled from the spec:` below.
-/

namespace Slack

/-- A JSON value, the untyped payloads `Message.from_payload` consumes.
Python dicts are modelled as ordered association lists (insertion order is
what `json.loads` and dict literals preserve); numbers are integers, which is
all the payloads in this repository use. -/
inductive Json where
  | null
  | bool (b : Bool)
  | num (n : Int)
  | str (s : String)
  | arr (elems : List Json)
  | obj (fields : List (String × Json))

/-- The ways a decode can fail.  Every explicit `raise ValueError(msg)` in
`message.py` becomes `valueError msg`.  `typeError` and `attributeError` model
Python's unguarded `TypeError` / `AttributeError` crashes (iterating a
non-iterable, calling `.get` on a non-dict).  `validationError` models a
pydantic `ValidationError` raised inside a `create` constructor of the absent
`blocks`/`composition`/`elements` modules (pydantic rejects ill-typed field
values). -/
inductive PyError where
  | valueError (msg : String)
  | typeError (msg : String)
  | attributeError (msg : String)
  | validationError (msg : String)

/-- `fields.get(key)`: first binding of `key` in an association list, `none`
when the key is absent (Python `dict.get` returns `None`). -/
def jget : List (String × Json) → String → Option Json
  | [], _ => none
  | (k, v) :: rest, key => if k = key then some v else jget rest key

/-- Python truthiness of a JSON value: `None`, `False`, `0`, `""`, `[]` and
`\x7b\x7d` are falsy, everything else truthy. -/
def truthyVal : Json → Bool
  | .null => false
  | .bool b => b
  | .num n => n != 0
  | .str s => s != ""
  | .arr l => !l.isEmpty
  | .obj l => !l.isEmpty

/-- Python truthiness of `d.get(key)`: an absent key reads as `None`, falsy. -/
def truthy : Option Json → Bool
  | none => false
  | some v => truthyVal v

/-- Python `str()` rendering of a value, as interpolated into error message
strings such as `Unsupported block type: ...`. -/
def pyStr : Json → String
  | .null => "None"
  | .bool true => "True"
  | .bool false => "False"
  | .num n => toString n
  | .str s => s
  | .arr _ => "[...]"
  | .obj _ => "\x7b...\x7d"

/-- Modelled from the spec: pydantic coercion of a required `str` field in the
absent data-class modules — a non-string value is rejected with a
`ValidationError`. -/
def asStr : Json → String → Except PyError String
  | .str s, _ => .ok s
  | _, what => .error (.validationError what)

/-- Modelled from the spec: pydantic coercion of an `Optional[str]` field;
absent and `null` decode to unset. -/
def asOptStr : Option Json → String → Except PyError (Option String)
  | none, _ => .ok none
  | some .null, _ => .ok none
  | some (.str s), _ => .ok (some s)
  | some _, what => .error (.validationError what)

/-- Modelled from the spec: pydantic coercion of an `Optional[bool]` field;
absent and `null` decode to unset, "a state distinct from false". -/
def asOptBool : Option Json → String → Except PyError (Option Bool)
  | none, _ => .ok none
  | some .null, _ => .ok none
  | some (.bool b), _ => .ok (some b)
  | some _, what => .error (.validationError what)

/-- Python `for x in j`: lists iterate their elements, strings iterate their
characters (each a one-character string), dicts iterate their keys, and
`None`/numbers/booleans raise `TypeError`. -/
def pyIter : Json → Except PyError (List Json)
  | .arr l => .ok l
  | .str s => .ok (s.toList.map fun c => Json.str (String.singleton c))
  | .obj l => .ok (l.map fun p => Json.str p.1)
  | .null => .error (.typeError "NoneType object is not iterable")
  | .bool _ => .error (.typeError "bool object is not iterable")
  | .num _ => .error (.typeError "int object is not iterable")

/-- Sequential effectful map, the semantics of the list comprehensions and
`for` loops in the decoder: elements are processed left to right and the
first failure aborts the whole traversal. -/
def mapExcept (f : Json → Except PyError α) : List Json → Except PyError (List α)
  | [] => .ok []
  | x :: xs => do
      let a ← f x
      let rest ← mapExcept f xs
      .ok (a :: rest)

/-! ## The typed data model

Modelled from the spec: the `composition`, `elements` and `blocks` modules are
absent from `src/`; their pydantic classes are reconstructed from §3 of the
spec and from the exact `create(...)` calls `message.py` makes into them.
Optional fields are three-state (`Option`), "absent / explicitly set". -/

/-- Modelled from the spec: `PlainText` — `text: string`, optional `emoji`
flag, unset distinct from false. -/
structure PlainText where
  text : String
  emoji : Option Bool

/-- Modelled from the spec: `MrkdwnText` — `text: string`, optional
`verbatim` flag. -/
structure MrkdwnText where
  text : String
  verbatim : Option Bool

/-- A text object: the two-variant union `Union[PlainText, MrkdwnText]`. -/
inductive TextObj where
  | plain (p : PlainText)
  | mrkdwn (m : MrkdwnText)

/-- Modelled from the spec: the `Option` record of the `elements` module
(named `OptionItem` here to avoid clashing with Lean's `Option`).
`Option.create` in `message.py` is called with `text`, `value`,
`description`, `url` all plain strings — the decoder forwards `text.text`. -/
structure OptionItem where
  text : String
  value : String
  description : Option String
  url : Option String

/-- Modelled from the spec: the ~24 element kinds, with exactly the fields
the `create(...)` calls in `message.py` populate. -/
inductive Element where
  | button (text : String) (action_id : String) (url : Option String)
      (value : Option String) (style : Option String)
  | checkboxes (action_id : String) (options : List OptionItem)
      (initial_options : Option (List OptionItem))
  | datepicker (action_id : String)
  | timepicker (action_id : String)
  | datetimepicker (action_id : String)
  | emailInput (action_id : String)
  | numberInput (action_id : String)
  | plainTextInput (action_id : String)
  | urlInput (action_id : String)
  | radioButtons (action_id : String) (options : List OptionItem)
  | staticSelect (action_id : String) (placeholder : String)
      (options : Option (List OptionItem))
  | externalSelect (action_id : String) (placeholder : String)
  | usersSelect (action_id : String) (placeholder : String)
  | conversationsSelect (action_id : String) (placeholder : String)
  | channelsSelect (action_id : String) (placeholder : String)
  | multiStaticSelect (action_id : String) (placeholder : String)
      (options : Option (List OptionItem))
  | multiExternalSelect (action_id : String) (placeholder : String)
  | overflow (action_id : String) (options : List OptionItem)
  | fileInput (action_id : String)
  | richTextInput (action_id : String)
  | imageElem (image_url : String) (alt_text : String)
  | multiUsersSelect (action_id : String) (placeholder : String)
  | multiConversationsSelect (action_id : String) (placeholder : String)
  | multiChannelsSelect (action_id : String) (placeholder : String)

/-- A context-block entry: a text object or an element. -/
inductive CtxElem where
  | text (t : TextObj)
  | elem (e : Element)

/-- Modelled from the spec: the 10 block kinds, fields as populated by the
`create(...)` calls in `message.py` (note `header` holds a `PlainText` built
from a bare string — `Header.create(text=text.text, ...)`; `image` and
`input` likewise receive only the `.text` strings of their decoded text
objects). -/
inductive Block where
  | section (text : Option TextObj) (fields : Option (List TextObj))
      (accessory : Option Element) (block_id : Option String)
  | divider (block_id : Option String)
  | image (image_url : String) (alt_text : String) (title : Option String)
      (block_id : Option String)
  | actions (elements : List Element) (block_id : Option String)
  | context (elements : List CtxElem) (block_id : Option String)
  | input (label : String) (element : Element) (hint : Option String)
      (optional : Option Bool) (dispatch_action : Option Bool)
      (block_id : Option String)
  | file (external_id : String) (block_id : Option String)
  | header (text : PlainText) (block_id : Option String)
  | video (title : String) (video_url : String) (title_url : Option String)
      (description : Option String) (thumbnail_url : Option String)
      (alt_text : Option String) (author_name : Option String)
      (provider_name : Option String) (provider_icon_url : Option String)
      (block_id : Option String)
  | richText (elements : List Json) (block_id : Option String)

/-- Modelled from the spec: `SlackConstraints` of the absent `validators`
module — the per-container block ceilings, "distinct constants per container
kind", valued per the platform limits. -/
def SlackConstraints.MAX_BLOCKS_PER_MESSAGE : Nat := 50

/-- Modelled from the spec: modal block ceiling. -/
def SlackConstraints.MAX_BLOCKS_PER_MODAL : Nat := 100

/-- Modelled from the spec: home-tab block ceiling. -/
def SlackConstraints.MAX_BLOCKS_PER_HOME_TAB : Nat := 100

/-- The `Message` container: an ordered block sequence plus top-level flags.
The flags are held as raw JSON because `from_payload` assigns them after
construction (`message.response_type = payload_dict[...]`), which pydantic
does not re-validate (`validate_assignment` is off), so the values are copied
verbatim. -/
structure Message where
  blocks : List Block
  response_type : Option Json
  replace_original : Option Json
  delete_original : Option Json
  metadata : Option Json

/-- The `Modal` container (fields of the pydantic class in `message.py`). -/
structure Modal where
  title : String
  blocks : List Block
  submit : Option String
  close : Option String
  private_metadata : Option String
  callback_id : Option String
  clear_on_close : Option Bool
  notify_on_close : Option Bool
  external_id : Option String

/-- The `HomeTab` container (fields of the pydantic class in `message.py`). -/
structure HomeTab where
  blocks : List Block
  private_metadata : Option String
  callback_id : Option String
  external_id : Option String

/-- The `.text` attribute shared by both text-object variants, as read by the
decoder when it forwards only the string (`text.text`). -/
def TextObj.text : TextObj → String
  | .plain p => p.text
  | .mrkdwn m => m.text

/-! ## The decoder (`Message._parse_*` in `src/slack_blocksmith/message.py`) -/

/-- `Message._parse_text_object` (message.py lines 517-533): requires truthy
`type` and `text`, dispatches on the kind string, reads the kind-specific
optional flag only if present. -/
def Message.parse_text_object (text_data : Json) : Except PyError TextObj :=
  match text_data with
  | .obj f =>
    if truthy (jget f "type") && truthy (jget f "text") then
      match jget f "type" with
      | some (.str t) =>
        if t = "plain_text" then
          match jget f "text" with
          | some (.str s) =>
            (asOptBool (jget f "emoji") "PlainText emoji must be a bool").map
              (fun e => TextObj.plain ⟨s, e⟩)
          | _ => .error (.validationError "PlainText text must be a string")
        else if t = "mrkdwn" then
          match jget f "text" with
          | some (.str s) =>
            (asOptBool (jget f "verbatim") "MrkdwnText verbatim must be a bool").map
              (fun v => TextObj.mrkdwn ⟨s, v⟩)
          | _ => .error (.validationError "MrkdwnText text must be a string")
        else .error (.valueError ("Unsupported text type: " ++ t))
      | some v => .error (.valueError ("Unsupported text type: " ++ pyStr v))
      | none => .error (.valueError "Text object must have type and text")
    else .error (.valueError "Text object must have type and text")
  | _ => .error (.attributeError "object has no attribute get")

/-- `Message._parse_option` (message.py lines 638-662): requires truthy
`text` and `value`; the nested text object is decoded and then only its
`.text` string is forwarded to `Option.create` (flags are dropped). -/
def Message.parse_option (option_data : Json) : Except PyError OptionItem :=
  match option_data with
  | .obj f =>
    if truthy (jget f "text") && truthy (jget f "value") then do
      let text ← Message.parse_text_object ((jget f "text").getD .null)
      let description ←
        match jget f "description" with
        | some d => (Message.parse_text_object d).map some
        | none => pure (none : Option TextObj)
      let value ← asStr ((jget f "value").getD .null) "Option value must be a string"
      let url ← asOptStr (jget f "url") "Option url must be a string"
      .ok ⟨text.text, value, description.map TextObj.text, url⟩
    else .error (.valueError "Option must have text and value")
  | _ => .error (.attributeError "object has no attribute get")

/-- Modelled from the spec: pydantic validation of `Button.style`, declared
`Optional[Literal["primary", "danger"]]` (spec §3). -/
def asStyle : Option Json → Except PyError (Option String)
  | none => .ok none
  | some .null => .ok none
  | some (.str s) =>
    if s = "primary" ∨ s = "danger" then .ok (some s)
    else .error (.validationError "Button style must be primary or danger")
  | some _ => .error (.validationError "Button style must be primary or danger")

/-- `Message._parse_button_element` (message.py lines 593-612). -/
def Message.parse_button_element (element_data : Json) : Except PyError Element :=
  match element_data with
  | .obj f =>
    if truthy (jget f "text") && truthy (jget f "action_id") then do
      let text ← Message.parse_text_object ((jget f "text").getD .null)
      let action_id ← asStr ((jget f "action_id").getD .null) "Button action_id must be a string"
      let url ← asOptStr (jget f "url") "Button url must be a string"
      let value ← asOptStr (jget f "value") "Button value must be a string"
      let style ← asStyle (jget f "style")
      .ok (.button text.text action_id url value style)
    else .error (.valueError "Button must have text and action_id")
  | _ => .error (.attributeError "object has no attribute get")

/-- Common body of the element routines that require only a truthy
`action_id` (datepicker, timepicker, datetimepicker, the text inputs,
file_input, rich_text_input). -/
def Message.parse_simple_element (f : List (String × Json)) (kindName : String)
    (mk : String → Element) : Except PyError Element :=
  if truthy (jget f "action_id") then do
    let action_id ← asStr ((jget f "action_id").getD .null)
      (kindName ++ " action_id must be a string")
    .ok (mk action_id)
  else .error (.valueError (kindName ++ " must have action_id"))

/-- Common body of the select routines that require a truthy `action_id` and
`placeholder` and keep only the placeholder string. -/
def Message.parse_placeholder_element (f : List (String × Json)) (kindName : String)
    (mk : String → String → Element) : Except PyError Element :=
  if truthy (jget f "action_id") && truthy (jget f "placeholder") then do
    let placeholder ← Message.parse_text_object ((jget f "placeholder").getD .null)
    let action_id ← asStr ((jget f "action_id").getD .null)
      (kindName ++ " action_id must be a string")
    .ok (mk action_id placeholder.text)
  else .error (.valueError (kindName ++ " must have action_id and placeholder"))

/-- Common body of `_parse_checkboxes_element` / `_parse_radio_buttons_element`
/ `_parse_overflow_element`: required `action_id`, options list decoded
element-wise (defaulting to empty). -/
def Message.parse_options_element (f : List (String × Json)) (kindName : String)
    (mk : String → List OptionItem → Except PyError Element) : Except PyError Element :=
  if truthy (jget f "action_id") then do
    let items ← pyIter ((jget f "options").getD (.arr []))
    let options ← mapExcept Message.parse_option items
    let action_id ← asStr ((jget f "action_id").getD .null)
      (kindName ++ " action_id must be a string")
    mk action_id options
  else .error (.valueError (kindName ++ " must have action_id"))

/-- `Message._parse_checkboxes_element` (message.py lines 616-636), including
the post-construction `initial_options` assignment. -/
def Message.parse_checkboxes_element (element_data : Json) : Except PyError Element :=
  match element_data with
  | .obj f =>
    Message.parse_options_element f "Checkboxes" (fun action_id options => do
      let initial ←
        match jget f "initial_options" with
        | some io => do
            let iitems ← pyIter io
            (mapExcept Message.parse_option iitems).map some
        | none => pure (none : Option (List OptionItem))
      .ok (.checkboxes action_id options initial))
  | _ => .error (.attributeError "object has no attribute get")

/-- `Message._parse_static_select_element` (message.py lines 749-767): the
`options` argument becomes `None` when the raw list is falsy (absent or
empty). -/
def Message.parse_static_select_options (f : List (String × Json)) (kindName : String)
    (mk : String → String → Option (List OptionItem) → Element) : Except PyError Element :=
  if truthy (jget f "action_id") && truthy (jget f "placeholder") then do
    let placeholder ← Message.parse_text_object ((jget f "placeholder").getD .null)
    let od := (jget f "options").getD (.arr [])
    let options ←
      if truthyVal od then do
        let items ← pyIter od
        (mapExcept Message.parse_option items).map some
      else pure (none : Option (List OptionItem))
    let action_id ← asStr ((jget f "action_id").getD .null)
      (kindName ++ " action_id must be a string")
    .ok (mk action_id placeholder.text options)
  else .error (.valueError (kindName ++ " must have action_id and placeholder"))

/-- `Message._parse_image_element` (message.py lines 895-904). -/
def Message.parse_image_element (element_data : Json) : Except PyError Element :=
  match element_data with
  | .obj f =>
    if truthy (jget f "image_url") && truthy (jget f "alt_text") then do
      let image_url ← asStr ((jget f "image_url").getD .null) "Image image_url must be a string"
      let alt_text ← asStr ((jget f "alt_text").getD .null) "Image alt_text must be a string"
      .ok (.imageElem image_url alt_text)
    else .error (.valueError "Image element must have image_url and alt_text")
  | _ => .error (.attributeError "object has no attribute get")

/-- `Message._parse_element` (message.py lines 535-591): the ~24-way dispatch
on the `type` discriminator; missing type and unknown type are rejected. -/
def Message.parse_element (element_data : Json) : Except PyError Element :=
  match element_data with
  | .obj f =>
    if truthy (jget f "type") then
      match jget f "type" with
      | some (.str t) =>
        if t = "button" then Message.parse_button_element element_data
        else if t = "checkboxes" then Message.parse_checkboxes_element element_data
        else if t = "datepicker" then Message.parse_simple_element f "DatePicker" .datepicker
        else if t = "timepicker" then Message.parse_simple_element f "TimePicker" .timepicker
        else if t = "datetimepicker" then
          Message.parse_simple_element f "DatetimePicker" .datetimepicker
        else if t = "email_text_input" then
          Message.parse_simple_element f "EmailInput" .emailInput
        else if t = "number_input" then
          Message.parse_simple_element f "NumberInput" .numberInput
        else if t = "plain_text_input" then
          Message.parse_simple_element f "PlainTextInput" .plainTextInput
        else if t = "url_text_input" then Message.parse_simple_element f "URLInput" .urlInput
        else if t = "radio_buttons" then
          Message.parse_options_element f "RadioButtons" (fun a o => .ok (.radioButtons a o))
        else if t = "static_select" then
          Message.parse_static_select_options f "StaticSelect" .staticSelect
        else if t = "external_select" then
          Message.parse_placeholder_element f "ExternalSelect" .externalSelect
        else if t = "users_select" then
          Message.parse_placeholder_element f "UsersSelect" .usersSelect
        else if t = "conversations_select" then
          Message.parse_placeholder_element f "ConversationsSelect" .conversationsSelect
        else if t = "channels_select" then
          Message.parse_placeholder_element f "ChannelsSelect" .channelsSelect
        else if t = "multi_static_select" then
          Message.parse_static_select_options f "MultiStaticSelect" .multiStaticSelect
        else if t = "multi_external_select" then
          Message.parse_placeholder_element f "MultiExternalSelect" .multiExternalSelect
        else if t = "overflow" then
          Message.parse_options_element f "OverflowMenu" (fun a o => .ok (.overflow a o))
        else if t = "file_input" then Message.parse_simple_element f "FileInput" .fileInput
        else if t = "rich_text_input" then
          Message.parse_simple_element f "RichTextInput" .richTextInput
        else if t = "image" then Message.parse_image_element element_data
        else if t = "multi_users_select" then
          Message.parse_placeholder_element f "MultiUsersSelect" .multiUsersSelect
        else if t = "multi_conversations_select" then
          Message.parse_placeholder_element f "MultiConversationsSelect" .multiConversationsSelect
        else if t = "multi_channels_select" then
          Message.parse_placeholder_element f "MultiChannelsSelect" .multiChannelsSelect
        else .error (.valueError ("Unsupported element type: " ++ t))
      | some v => .error (.valueError ("Unsupported element type: " ++ pyStr v))
      | none => .error (.valueError "Element must have a type")
    else .error (.valueError "Element must have a type")
  | _ => .error (.attributeError "object has no attribute get")

/-- `Message._parse_section_block` (message.py lines 357-378): `text`,
`fields` and `accessory` are all optional (presence-tested with `in`), and a
section carrying none of them decodes successfully. -/
def Message.parse_section_block (f : List (String × Json)) (block_id : Option Json) :
    Except PyError Block := do
  let text ←
    match jget f "text" with
    | some td => (Message.parse_text_object td).map some
    | none => pure (none : Option TextObj)
  let fields ←
    match jget f "fields" with
    | some fd => do
        let items ← pyIter fd
        (mapExcept Message.parse_text_object items).map some
    | none => pure (none : Option (List TextObj))
  let accessory ←
    match jget f "accessory" with
    | some ad => (Message.parse_element ad).map some
    | none => pure (none : Option Element)
  let bid ← asOptStr block_id "block_id must be a string"
  .ok (.section text fields accessory bid)

/-- `Message._parse_image_block` (message.py lines 380-400): requires truthy
`image_url` and `alt_text`; only the title text string is kept. -/
def Message.parse_image_block (f : List (String × Json)) (block_id : Option Json) :
    Except PyError Block :=
  if truthy (jget f "image_url") && truthy (jget f "alt_text") then do
    let title ←
      match jget f "title" with
      | some td => (Message.parse_text_object td).map some
      | none => pure (none : Option TextObj)
    let image_url ← asStr ((jget f "image_url").getD .null) "Image image_url must be a string"
    let alt_text ← asStr ((jget f "alt_text").getD .null) "Image alt_text must be a string"
    let bid ← asOptStr block_id "block_id must be a string"
    .ok (.image image_url alt_text (title.map TextObj.text) bid)
  else .error (.valueError "Image block must have image_url and alt_text")

/-- `Message._parse_actions_block` (message.py lines 402-409). -/
def Message.parse_actions_block (f : List (String × Json)) (block_id : Option Json) :
    Except PyError Block := do
  let items ← pyIter ((jget f "elements").getD (.arr []))
  let elements ← mapExcept Message.parse_element items
  let bid ← asOptStr block_id "block_id must be a string"
  .ok (.actions elements bid)

/-- `Message._parse_context_block` (message.py lines 411-423): each entry is
routed to the text-object decoder when its `type` is `plain_text`/`mrkdwn`,
otherwise to the element decoder; `.get` on a non-dict entry crashes. -/
def Message.parse_context_block (f : List (String × Json)) (block_id : Option Json) :
    Except PyError Block := do
  let items ← pyIter ((jget f "elements").getD (.arr []))
  let elements ← mapExcept
    (fun elem_data =>
      match elem_data with
      | .obj ef =>
        match jget ef "type" with
        | some (.str t) =>
          if t = "plain_text" ∨ t = "mrkdwn" then
            (Message.parse_text_object elem_data).map CtxElem.text
          else (Message.parse_element elem_data).map CtxElem.elem
        | _ => (Message.parse_element elem_data).map CtxElem.elem
      | _ => .error (.attributeError "object has no attribute get"))
    items
  let bid ← asOptStr block_id "block_id must be a string"
  .ok (.context elements bid)

/-- `Message._parse_input_block` (message.py lines 425-454): requires truthy
`label` and `element`; only the label/hint text strings are kept. -/
def Message.parse_input_block (f : List (String × Json)) (block_id : Option Json) :
    Except PyError Block :=
  if truthy (jget f "label") then do
    let label ← Message.parse_text_object ((jget f "label").getD .null)
    if truthy (jget f "element") then do
      let element ← Message.parse_element ((jget f "element").getD .null)
      let hint ←
        match jget f "hint" with
        | some hd => (Message.parse_text_object hd).map some
        | none => pure (none : Option TextObj)
      let optional ← asOptBool (jget f "optional") "Input optional must be a bool"
      let dispatch_action ← asOptBool (jget f "dispatch_action")
        "Input dispatch_action must be a bool"
      let bid ← asOptStr block_id "block_id must be a string"
      .ok (.input label.text element (hint.map TextObj.text) optional dispatch_action bid)
    else .error (.valueError "Input block must have an element")
  else .error (.valueError "Input block must have a label")

/-- `Message._parse_file_block` (message.py lines 456-462). -/
def Message.parse_file_block (f : List (String × Json)) (block_id : Option Json) :
    Except PyError Block :=
  if truthy (jget f "external_id") then do
    let external_id ← asStr ((jget f "external_id").getD .null) "File external_id must be a string"
    let bid ← asOptStr block_id "block_id must be a string"
    .ok (.file external_id bid)
  else .error (.valueError "File block must have external_id")

/-- `Message._parse_header_block` (message.py lines 464-473): requires truthy
`text`, decodes it as a text object of either kind, then keeps only the
string — `Header.create(text=text.text, ...)` — so the header holds a
`PlainText` with the `emoji` flag unset. -/
def Message.parse_header_block (f : List (String × Json)) (block_id : Option Json) :
    Except PyError Block :=
  if truthy (jget f "text") then do
    let text ← Message.parse_text_object ((jget f "text").getD .null)
    let bid ← asOptStr block_id "block_id must be a string"
    .ok (.header ⟨text.text, none⟩ bid)
  else .error (.valueError "Header block must have text")

/-- `Message._parse_video_block` (message.py lines 475-507). -/
def Message.parse_video_block (f : List (String × Json)) (block_id : Option Json) :
    Except PyError Block :=
  if truthy (jget f "title") && truthy (jget f "video_url") then do
    let title ← Message.parse_text_object ((jget f "title").getD .null)
    let video_url ← asStr ((jget f "video_url").getD .null) "Video video_url must be a string"
    let title_url ← asOptStr (jget f "title_url") "Video title_url must be a string"
    let description ← asOptStr (jget f "description") "Video description must be a string"
    let thumbnail_url ← asOptStr (jget f "thumbnail_url") "Video thumbnail_url must be a string"
    let alt_text ← asOptStr (jget f "alt_text") "Video alt_text must be a string"
    let author_name ← asOptStr (jget f "author_name") "Video author_name must be a string"
    let provider_name ← asOptStr (jget f "provider_name") "Video provider_name must be a string"
    let provider_icon_url ← asOptStr (jget f "provider_icon_url")
      "Video provider_icon_url must be a string"
    let bid ← asOptStr block_id "block_id must be a string"
    .ok (.video title.text video_url title_url description thumbnail_url alt_text
      author_name provider_name provider_icon_url bid)
  else .error (.valueError "Video block must have title and video_url")

/-- Modelled from the spec: pydantic validation of `RichText.elements`,
declared `List[Dict[str, Any]]` — a list of objects carried opaque ("rich-
text element contents pass through byte-for-byte"). -/
def asJsonObjList : Json → Except PyError (List Json)
  | .arr l =>
    if l.all (fun j => match j with | .obj _ => true | _ => false) then .ok l
    else .error (.validationError "RichText elements must be a list of dicts")
  | _ => .error (.validationError "RichText elements must be a list of dicts")

/-- `Message._parse_rich_text_block` (message.py lines 509-515). -/
def Message.parse_rich_text_block (f : List (String × Json)) (block_id : Option Json) :
    Except PyError Block := do
  let elements ← asJsonObjList ((jget f "elements").getD (.arr []))
  let bid ← asOptStr block_id "block_id must be a string"
  .ok (.richText elements bid)

/-- `Message._parse_block` (message.py lines 325-355): the 10-way dispatch on
the block `type` discriminator. -/
def Message.parse_block (block_data : Json) : Except PyError Block :=
  match block_data with
  | .obj f =>
    if truthy (jget f "type") then
      let block_id := jget f "block_id"
      match jget f "type" with
      | some (.str t) =>
        if t = "section" then Message.parse_section_block f block_id
        else if t = "divider" then do
          let bid ← asOptStr block_id "block_id must be a string"
          .ok (.divider bid)
        else if t = "image" then Message.parse_image_block f block_id
        else if t = "actions" then Message.parse_actions_block f block_id
        else if t = "context" then Message.parse_context_block f block_id
        else if t = "input" then Message.parse_input_block f block_id
        else if t = "file" then Message.parse_file_block f block_id
        else if t = "header" then Message.parse_header_block f block_id
        else if t = "video" then Message.parse_video_block f block_id
        else if t = "rich_text" then Message.parse_rich_text_block f block_id
        else .error (.valueError ("Unsupported block type: " ++ t))
      | some v => .error (.valueError ("Unsupported block type: " ++ pyStr v))
      | none => .error (.valueError "Block must have a type")
    else .error (.valueError "Block must have a type")
  | _ => .error (.attributeError "object has no attribute get")

/-- The body of the `for block_data in blocks_data` loop in `from_payload`
(message.py lines 304-308): each entry must be a dict, then is parsed. -/
def Message.block_entry (block_data : Json) : Except PyError Block :=
  match block_data with
  | .obj _ => Message.parse_block block_data
  | _ => .error (.valueError "Each block must be a dictionary")

/-- `Message.from_payload` on an already-structured value (message.py lines
294-323): shape checks, the block loop, the pydantic block-count validator
run by `cls(blocks=parsed_blocks)`, then verbatim copies of the recognized
top-level fields.  A `blocks` value of `null` passes the
`is not None` shape guard and then crashes the loop. -/
def Message.from_payload_val (payload_dict : Json) : Except PyError Message :=
  match payload_dict with
  | .obj fields =>
    match (jget fields "blocks").getD (.arr []) with
    | .null => .error (.typeError "NoneType object is not iterable")
    | .arr blocks_data => do
        let blocks ← mapExcept Message.block_entry blocks_data
        if blocks.length > SlackConstraints.MAX_BLOCKS_PER_MESSAGE then
          .error (.valueError ("Number of blocks " ++ toString blocks.length ++
            " exceeds maximum of " ++ toString SlackConstraints.MAX_BLOCKS_PER_MESSAGE))
        else
          .ok { blocks := blocks
                response_type := jget fields "response_type"
                replace_original := jget fields "replace_original"
                delete_original := jget fields "delete_original"
                metadata := jget fields "metadata" }
    | _ => .error (.valueError "Blocks must be a list")
  | _ => .error (.valueError "Payload must be a dictionary")

/-! ## A model of Python `json.loads` (external standard library)

`from_payload` accepts either a dict or a JSON-encoded string; the string is
handed to `json.loads`, whose diagnostic is carried into the `ValueError`.
The parser below implements the JSON grammar over the characters of the
input (integers for numbers, the common string escapes). -/

/-- Skip JSON whitespace. -/
def skipWs : List Char → List Char
  | c :: cs => if c = ' ' ∨ c = '\t' ∨ c = '\n' ∨ c = '\r' then skipWs cs else c :: cs
  | [] => []

/-- Body of a string literal, after the opening quote. -/
def parseStrAux : List Char → String → Except String (String × List Char)
  | [], _ => .error "Unterminated string"
  | c :: cs, acc =>
    if c = '"' then .ok (acc, cs)
    else if c = '\\' then
      match cs with
      | [] => .error "Unterminated string"
      | e :: cs2 =>
        if e = '"' then parseStrAux cs2 (acc.push '"')
        else if e = '\\' then parseStrAux cs2 (acc.push '\\')
        else if e = '/' then parseStrAux cs2 (acc.push '/')
        else if e = 'n' then parseStrAux cs2 (acc.push '\n')
        else if e = 't' then parseStrAux cs2 (acc.push '\t')
        else if e = 'r' then parseStrAux cs2 (acc.push '\r')
        else .error "Invalid escape"
    else parseStrAux cs (acc.push c)

/-- Run of decimal digits. -/
def parseDigits : List Char → Nat → Nat × List Char
  | c :: cs, acc =>
    if c.isDigit then parseDigits cs (acc * 10 + (c.toNat - 48))
    else (acc, c :: cs)
  | [], acc => (acc, [])

mutual

/-- One JSON value; `fuel` bounds the recursion depth and `json_loads`
supplies more than any input of its length can consume. -/
def parseVal : Nat → List Char → Except String (Json × List Char)
  | 0, _ => .error "Nesting too deep"
  | fuel + 1, cs =>
    match skipWs cs with
    | [] => .error "Expecting value"
    | c :: rest =>
      if c = '"' then (parseStrAux rest "").map (fun p => (Json.str p.1, p.2))
      else if c = '[' then
        match skipWs rest with
        | ']' :: rest2 => .ok (Json.arr [], rest2)
        | rest2 => parseArrItems fuel rest2 []
      else if c = '\x7b' then
        match skipWs rest with
        | '\x7d' :: rest2 => .ok (Json.obj [], rest2)
        | rest2 => parseObjItems fuel rest2 []
      else if c = 't' then
        match rest with
        | 'r' :: 'u' :: 'e' :: rest2 => .ok (Json.bool true, rest2)
        | _ => .error "Expecting value"
      else if c = 'f' then
        match rest with
        | 'a' :: 'l' :: 's' :: 'e' :: rest2 => .ok (Json.bool false, rest2)
        | _ => .error "Expecting value"
      else if c = 'n' then
        match rest with
        | 'u' :: 'l' :: 'l' :: rest2 => .ok (Json.null, rest2)
        | _ => .error "Expecting value"
      else if c = '-' then
        match rest with
        | d :: rest2 =>
          if d.isDigit then
            let p := parseDigits rest2 (d.toNat - 48)
            .ok (Json.num (-(Int.ofNat p.1)), p.2)
          else .error "Expecting value"
        | [] => .error "Expecting value"
      else if c.isDigit then
        let p := parseDigits rest (c.toNat - 48)
        .ok (Json.num (Int.ofNat p.1), p.2)
      else .error "Expecting value"

/-- Comma-separated array items after `[`, first item pending. -/
def parseArrItems : Nat → List Char → List Json → Except String (Json × List Char)
  | 0, _, _ => .error "Nesting too deep"
  | fuel + 1, cs, acc => do
    let p ← parseVal fuel cs
    match skipWs p.2 with
    | ',' :: rest => parseArrItems fuel rest (acc ++ [p.1])
    | ']' :: rest => .ok (Json.arr (acc ++ [p.1]), rest)
    | _ => .error "Expecting comma"

/-- Comma-separated object members after an opening brace, first member
pending. -/
def parseObjItems : Nat → List Char → List (String × Json) →
    Except String (Json × List Char)
  | 0, _, _ => .error "Nesting too deep"
  | fuel + 1, cs, acc =>
    match skipWs cs with
    | '"' :: rest => do
      let k ← parseStrAux rest ""
      match skipWs k.2 with
      | ':' :: rest2 => do
        let p ← parseVal fuel rest2
        match skipWs p.2 with
        | ',' :: rest3 => parseObjItems fuel rest3 (acc ++ [(k.1, p.1)])
        | '\x7d' :: rest3 => .ok (Json.obj (acc ++ [(k.1, p.1)]), rest3)
        | _ => .error "Expecting comma"
      | _ => .error "Expecting colon"
    | _ => .error "Expecting property name"

end

/-- Model of Python `json.loads`: parse a full JSON document, failing with a
diagnostic string on malformed input. -/
def json_loads (s : String) : Except String Json :=
  match parseVal (2 * s.length + 2) s.toList with
  | .ok p => if (skipWs p.2).isEmpty then .ok p.1 else .error "Extra data"
  | .error e => .error e

/-- The runtime argument of `Message.from_payload`: a JSON-encoded string or
an already-structured value (`Union[str, Dict[str, Any]]`). -/
inductive Payload where
  | str (s : String)
  | val (j : Json)

/-- `Message.from_payload` (message.py lines 273-323): a string argument is
parsed with `json.loads` and a parse failure becomes
`ValueError("Invalid JSON payload: ...")`; both forms then continue
identically on the structured value. -/
def Message.from_payload : Payload → Except PyError Message
  | .str s =>
    match json_loads s with
    | .ok v => Message.from_payload_val v
    | .error e => .error (.valueError ("Invalid JSON payload: " ++ e))
  | .val j => Message.from_payload_val j

/-! ## The encoders

Modelled from the spec: the `build` methods of the text-object, element and
block classes live in the absent `composition`/`elements`/`blocks` modules.
Per spec §2/§4.1 the encoder is "the inverse, mechanical" — each value emits
its `type` tag, its required fields, and "only the flags that are set
(non-null)"; optional fields that were never set are omitted entirely. -/

/-- Entry list for one optional field: present only when set. -/
def optEntry (k : String) : Option Json → List (String × Json)
  | some v => [(k, v)]
  | none => []

/-- Modelled from the spec: `PlainText.build`. -/
def PlainText.build (p : PlainText) : Json :=
  .obj ([("type", .str "plain_text"), ("text", .str p.text)] ++
    optEntry "emoji" (p.emoji.map Json.bool))

/-- Modelled from the spec: `MrkdwnText.build`. -/
def MrkdwnText.build (m : MrkdwnText) : Json :=
  .obj ([("type", .str "mrkdwn"), ("text", .str m.text)] ++
    optEntry "verbatim" (m.verbatim.map Json.bool))

/-- Modelled from the spec: `build` of either text-object variant. -/
def TextObj.build : TextObj → Json
  | .plain p => p.build
  | .mrkdwn m => m.build

/-- Modelled from the spec: `Option.build` — the stored strings are emitted
as plain-text objects. -/
def OptionItem.build (o : OptionItem) : Json :=
  .obj ([("text", .obj [("type", .str "plain_text"), ("text", .str o.text)]),
         ("value", .str o.value)] ++
    optEntry "description"
      ((o.description.map fun d =>
        Json.obj [("type", .str "plain_text"), ("text", .str d)])) ++
    optEntry "url" (o.url.map Json.str))

/-- Modelled from the spec: `Element.build` — each kind emits its `type` tag
and its set fields. -/
def Element.build : Element → Json
  | .button text action_id url value style =>
      .obj ([("type", .str "button"),
             ("text", .obj [("type", .str "plain_text"), ("text", .str text)]),
             ("action_id", .str action_id)] ++
        optEntry "url" (url.map Json.str) ++
        optEntry "value" (value.map Json.str) ++
        optEntry "style" (style.map Json.str))
  | .checkboxes action_id options initial =>
      .obj ([("type", .str "checkboxes"), ("action_id", .str action_id),
             ("options", .arr (options.map OptionItem.build))] ++
        optEntry "initial_options"
          (initial.map fun l => Json.arr (l.map OptionItem.build)))
  | .datepicker action_id =>
      .obj [("type", .str "datepicker"), ("action_id", .str action_id)]
  | .timepicker action_id =>
      .obj [("type", .str "timepicker"), ("action_id", .str action_id)]
  | .datetimepicker action_id =>
      .obj [("type", .str "datetimepicker"), ("action_id", .str action_id)]
  | .emailInput action_id =>
      .obj [("type", .str "email_text_input"), ("action_id", .str action_id)]
  | .numberInput action_id =>
      .obj [("type", .str "number_input"), ("action_id", .str action_id)]
  | .plainTextInput action_id =>
      .obj [("type", .str "plain_text_input"), ("action_id", .str action_id)]
  | .urlInput action_id =>
      .obj [("type", .str "url_text_input"), ("action_id", .str action_id)]
  | .radioButtons action_id options =>
      .obj [("type", .str "radio_buttons"), ("action_id", .str action_id),
            ("options", .arr (options.map OptionItem.build))]
  | .staticSelect action_id placeholder options =>
      .obj ([("type", .str "static_select"), ("action_id", .str action_id),
             ("placeholder",
               .obj [("type", .str "plain_text"), ("text", .str placeholder)])] ++
        optEntry "options" (options.map fun l => Json.arr (l.map OptionItem.build)))
  | .externalSelect action_id placeholder =>
      .obj [("type", .str "external_select"), ("action_id", .str action_id),
            ("placeholder",
              .obj [("type", .str "plain_text"), ("text", .str placeholder)])]
  | .usersSelect action_id placeholder =>
      .obj [("type", .str "users_select"), ("action_id", .str action_id),
            ("placeholder",
              .obj [("type", .str "plain_text"), ("text", .str placeholder)])]
  | .conversationsSelect action_id placeholder =>
      .obj [("type", .str "conversations_select"), ("action_id", .str action_id),
            ("placeholder",
              .obj [("type", .str "plain_text"), ("text", .str placeholder)])]
  | .channelsSelect action_id placeholder =>
      .obj [("type", .str "channels_select"), ("action_id", .str action_id),
            ("placeholder",
              .obj [("type", .str "plain_text"), ("text", .str placeholder)])]
  | .multiStaticSelect action_id placeholder options =>
      .obj ([("type", .str "multi_static_select"), ("action_id", .str action_id),
             ("placeholder",
               .obj [("type", .str "plain_text"), ("text", .str placeholder)])] ++
        optEntry "options" (options.map fun l => Json.arr (l.map OptionItem.build)))
  | .multiExternalSelect action_id placeholder =>
      .obj [("type", .str "multi_external_select"), ("action_id", .str action_id),
            ("placeholder",
              .obj [("type", .str "plain_text"), ("text", .str placeholder)])]
  | .overflow action_id options =>
      .obj [("type", .str "overflow"), ("action_id", .str action_id),
            ("options", .arr (options.map OptionItem.build))]
  | .fileInput action_id =>
      .obj [("type", .str "file_input"), ("action_id", .str action_id)]
  | .richTextInput action_id =>
      .obj [("type", .str "rich_text_input"), ("action_id", .str action_id)]
  | .imageElem image_url alt_text =>
      .obj [("type", .str "image"), ("image_url", .str image_url),
            ("alt_text", .str alt_text)]
  | .multiUsersSelect action_id placeholder =>
      .obj [("type", .str "multi_users_select"), ("action_id", .str action_id),
            ("placeholder",
              .obj [("type", .str "plain_text"), ("text", .str placeholder)])]
  | .multiConversationsSelect action_id placeholder =>
      .obj [("type", .str "multi_conversations_select"), ("action_id", .str action_id),
            ("placeholder",
              .obj [("type", .str "plain_text"), ("text", .str placeholder)])]
  | .multiChannelsSelect action_id placeholder =>
      .obj [("type", .str "multi_channels_select"), ("action_id", .str action_id),
            ("placeholder",
              .obj [("type", .str "plain_text"), ("text", .str placeholder)])]

/-- Modelled from the spec: `build` of one context entry. -/
def CtxElem.build : CtxElem → Json
  | .text t => t.build
  | .elem e => e.build

/-- Modelled from the spec: `Block.build` — `type` tag first, then
`block_id` if set, then the kind-specific fields, set optionals only. -/
def Block.build : Block → Json
  | .section text fields accessory block_id =>
      .obj ([("type", .str "section")] ++
        optEntry "block_id" (block_id.map Json.str) ++
        optEntry "text" (text.map TextObj.build) ++
        optEntry "fields" (fields.map fun l => Json.arr (l.map TextObj.build)) ++
        optEntry "accessory" (accessory.map Element.build))
  | .divider block_id =>
      .obj ([("type", .str "divider")] ++ optEntry "block_id" (block_id.map Json.str))
  | .image image_url alt_text title block_id =>
      .obj ([("type", .str "image")] ++
        optEntry "block_id" (block_id.map Json.str) ++
        [("image_url", .str image_url), ("alt_text", .str alt_text)] ++
        optEntry "title"
          ((title.map fun t =>
            Json.obj [("type", .str "plain_text"), ("text", .str t)])))
  | .actions elements block_id =>
      .obj ([("type", .str "actions")] ++
        optEntry "block_id" (block_id.map Json.str) ++
        [("elements", .arr (elements.map Element.build))])
  | .context elements block_id =>
      .obj ([("type", .str "context")] ++
        optEntry "block_id" (block_id.map Json.str) ++
        [("elements", .arr (elements.map CtxElem.build))])
  | .input label element hint optional dispatch_action block_id =>
      .obj ([("type", .str "input")] ++
        optEntry "block_id" (block_id.map Json.str) ++
        [("label", .obj [("type", .str "plain_text"), ("text", .str label)]),
         ("element", element.build)] ++
        optEntry "hint"
          ((hint.map fun h =>
            Json.obj [("type", .str "plain_text"), ("text", .str h)])) ++
        optEntry "optional" (optional.map Json.bool) ++
        optEntry "dispatch_action" (dispatch_action.map Json.bool))
  | .file external_id block_id =>
      .obj ([("type", .str "file")] ++
        optEntry "block_id" (block_id.map Json.str) ++
        [("external_id", .str external_id)])
  | .header text block_id =>
      .obj ([("type", .str "header")] ++
        optEntry "block_id" (block_id.map Json.str) ++
        [("text", text.build)])
  | .video title video_url title_url description thumbnail_url alt_text
      author_name provider_name provider_icon_url block_id =>
      .obj ([("type", .str "video")] ++
        optEntry "block_id" (block_id.map Json.str) ++
        [("title", .obj [("type", .str "plain_text"), ("text", .str title)]),
         ("video_url", .str video_url)] ++
        optEntry "title_url" (title_url.map Json.str) ++
        optEntry "description" (description.map Json.str) ++
        optEntry "thumbnail_url" (thumbnail_url.map Json.str) ++
        optEntry "alt_text" (alt_text.map Json.str) ++
        optEntry "author_name" (author_name.map Json.str) ++
        optEntry "provider_name" (provider_name.map Json.str) ++
        optEntry "provider_icon_url" (provider_icon_url.map Json.str))
  | .richText elements block_id =>
      .obj ([("type", .str "rich_text")] ++
        optEntry "block_id" (block_id.map Json.str) ++
        [("elements", .arr elements)])

/-- `Message.build` (message.py lines 45-56): emits the built blocks and the
set top-level fields.  There is no block-count check on this path. -/
def Message.build (m : Message) : Json :=
  .obj ([("blocks", .arr (m.blocks.map Block.build))] ++
    optEntry "response_type" m.response_type ++
    optEntry "replace_original" m.replace_original ++
    optEntry "delete_original" m.delete_original ++
    optEntry "metadata" m.metadata)

/-- `Message.add_block` (message.py lines 63-66): a plain list append, with
no validation ("not rejected eagerly"). -/
def Message.add_block (m : Message) (b : Block) : Message :=
  { m with blocks := m.blocks ++ [b] }

/-- The pydantic `validate_blocks` field validator of `Message` (message.py
lines 35-43), run on bulk construction `Message(blocks=...)`. -/
def Message.mk_validated (blocks : List Block) : Except PyError Message :=
  if blocks.length > SlackConstraints.MAX_BLOCKS_PER_MESSAGE then
    .error (.valueError ("Number of blocks " ++ toString blocks.length ++
      " exceeds maximum of " ++ toString SlackConstraints.MAX_BLOCKS_PER_MESSAGE))
  else .ok { blocks := blocks, response_type := none, replace_original := none,
             delete_original := none, metadata := none }

/-- `Modal.build` (message.py lines 981-1007): re-validates the block-count
ceiling immediately before emission. -/
def Modal.build (m : Modal) : Except PyError Json :=
  if m.blocks.length > SlackConstraints.MAX_BLOCKS_PER_MODAL then
    .error (.valueError ("Number of blocks " ++ toString m.blocks.length ++
      " exceeds maximum of " ++ toString SlackConstraints.MAX_BLOCKS_PER_MODAL))
  else
    .ok (.obj ([("type", .str "modal"),
      ("title", .obj [("type", .str "plain_text"), ("text", .str m.title)]),
      ("blocks", .arr (m.blocks.map Block.build))] ++
      optEntry "submit"
        ((m.submit.map fun s =>
          Json.obj [("type", .str "plain_text"), ("text", .str s)])) ++
      optEntry "close"
        ((m.close.map fun s =>
          Json.obj [("type", .str "plain_text"), ("text", .str s)])) ++
      optEntry "private_metadata" (m.private_metadata.map Json.str) ++
      optEntry "callback_id" (m.callback_id.map Json.str) ++
      optEntry "clear_on_close" (m.clear_on_close.map Json.bool) ++
      optEntry "notify_on_close" (m.notify_on_close.map Json.bool) ++
      optEntry "external_id" (m.external_id.map Json.str)))

/-- `Modal.add_block` (message.py lines 1033-1036): a plain list append. -/
def Modal.add_block (m : Modal) (b : Block) : Modal :=
  { m with blocks := m.blocks ++ [b] }

/-- `HomeTab.build` (message.py lines 1276-1293): re-validates the
block-count ceiling immediately before emission. -/
def HomeTab.build (h : HomeTab) : Except PyError Json :=
  if h.blocks.length > SlackConstraints.MAX_BLOCKS_PER_HOME_TAB then
    .error (.valueError ("Number of blocks " ++ toString h.blocks.length ++
      " exceeds maximum of " ++ toString SlackConstraints.MAX_BLOCKS_PER_HOME_TAB))
  else
    .ok (.obj ([("type", .str "home"),
      ("blocks", .arr (h.blocks.map Block.build))] ++
      optEntry "private_metadata" (h.private_metadata.map Json.str) ++
      optEntry "callback_id" (h.callback_id.map Json.str) ++
      optEntry "external_id" (h.external_id.map Json.str)))

/-- `HomeTab.add_block` (message.py lines 1309-1312): a plain list append. -/
def HomeTab.add_block (h : HomeTab) (b : Block) : HomeTab :=
  { h with blocks := h.blocks ++ [b] }

/-! ## Theorems for the claims -/

/-- The sequential traversal surfaces the error of the first failing entry:
if every entry before index `i` succeeds and entry `i` fails with `e`, the
whole traversal fails with `e`. -/
theorem mapExcept_first_error {α : Type} (g : Json → Except PyError α) :
    ∀ (l : List Json) (i : Nat) (e : PyError),
    (∀ k, k < i → ∀ hk : k < l.length, ∃ b, g (l.get ⟨k, hk⟩) = .ok b) →
    ∀ hi : i < l.length, g (l.get ⟨i, hi⟩) = .error e →
    mapExcept g l = .error e := by
  intro l
  induction l with
  | nil => intro i e _ hi; exact absurd hi (by simp)
  | cons x xs ih =>
    intro i e hok hi hie
    cases i with
    | zero =>
      simp only [List.get] at hie
      simp only [mapExcept, hie]
      rfl
    | succ n =>
      obtain ⟨b, hb⟩ := hok 0 (Nat.succ_pos n) (by simp)
      simp only [List.get] at hb
      have hn : n < xs.length := Nat.lt_of_succ_lt_succ hi
      have hxs : mapExcept g xs = .error e := by
        refine ih n e ?_ hn ?_
        · intro k hk hkx
          have := hok (k + 1) (Nat.succ_lt_succ hk) (Nat.succ_lt_succ hkx)
          simpa using this
        · simpa using hie
      simp only [mapExcept, hb, hxs]
      rfl

/-- Claim C2 (status: code bug): a `Message` grown one block at a time to one
past the ceiling still builds successfully — `Message.build` performs no
block-count check, unlike `Modal.build` and `HomeTab.build`, which accept
exactly `MAX` blocks and reject `MAX + 1` with the limit error; the
`Message` ceiling is enforced only by the bulk-construction validator. -/
theorem c2_build_limit :
    (Message.build ((List.replicate (SlackConstraints.MAX_BLOCKS_PER_MESSAGE + 1)
        (Block.divider none)).foldl Message.add_block
        { blocks := [], response_type := none, replace_original := none,
          delete_original := none, metadata := none }) =
      .obj [("blocks", .arr (List.replicate (SlackConstraints.MAX_BLOCKS_PER_MESSAGE + 1)
        (.obj [("type", .str "divider")])))])
    ∧ (Message.mk_validated (List.replicate (SlackConstraints.MAX_BLOCKS_PER_MESSAGE + 1)
        (Block.divider none)) =
      .error (.valueError "Number of blocks 51 exceeds maximum of 50"))
    ∧ (Modal.build ⟨"T",
        List.replicate SlackConstraints.MAX_BLOCKS_PER_MODAL (Block.divider none),
        none, none, none, none, none, none, none⟩ =
      .ok (.obj [("type", .str "modal"),
        ("title", .obj [("type", .str "plain_text"), ("text", .str "T")]),
        ("blocks", .arr (List.replicate SlackConstraints.MAX_BLOCKS_PER_MODAL
          (.obj [("type", .str "divider")])))]))
    ∧ (Modal.build ⟨"T",
        List.replicate (SlackConstraints.MAX_BLOCKS_PER_MODAL + 1) (Block.divider none),
        none, none, none, none, none, none, none⟩ =
      .error (.valueError "Number of blocks 101 exceeds maximum of 100"))
    ∧ (HomeTab.build ⟨List.replicate SlackConstraints.MAX_BLOCKS_PER_HOME_TAB
          (Block.divider none), none, none, none⟩ =
      .ok (.obj [("type", .str "home"),
        ("blocks", .arr (List.replicate SlackConstraints.MAX_BLOCKS_PER_HOME_TAB
          (.obj [("type", .str "divider")])))]))
    ∧ (HomeTab.build ⟨List.replicate (SlackConstraints.MAX_BLOCKS_PER_HOME_TAB + 1)
          (Block.divider none), none, none, none⟩ =
      .error (.valueError "Number of blocks 101 exceeds maximum of 100")) :=
  ⟨rfl, rfl, rfl, rfl, rfl, rfl⟩

/-- Claim C1 counterexample: a payload whose header text carries
`emoji: true` round-trips to an output whose header text object has no
`emoji` entry at all — the flag does not survive decode/encode, because
`_parse_header_block` forwards only the text string. -/
theorem c1_counterexample :
    ((Message.from_payload (.val (.obj [("blocks", .arr [.obj [("type", .str "header"),
        ("text", .obj [("type", .str "plain_text"), ("text", .str "T"),
          ("emoji", .bool true)])]])]))).map Message.build =
      .ok (.obj [("blocks", .arr [.obj [("type", .str "header"),
        ("text", .obj [("type", .str "plain_text"), ("text", .str "T")])]])]))
    ∧ jget [("type", .str "plain_text"), ("text", .str "T")] "emoji" = none :=
  ⟨rfl, rfl⟩

/-- Claim C1 as amended: optional text-object flags survive the decode/encode
round trip only at positions where the parser keeps the whole text object
(section text, section fields, context text entries); at positions where only
the string is forwarded — header text, option text, input label — the flag is
dropped (decoded to unset, hence omitted on re-encode). -/
theorem c1_flag_positions (s v : String) (hs : s ≠ "") (hv : v ≠ "") (b : Bool) :
    (Message.parse_block (.obj [("type", .str "header"),
        ("text", .obj [("type", .str "plain_text"), ("text", .str s),
          ("emoji", .bool b)])]) =
      .ok (.header ⟨s, none⟩ none))
    ∧ (Message.parse_option (.obj [("text", .obj [("type", .str "mrkdwn"),
        ("text", .str s), ("verbatim", .bool b)]), ("value", .str v)]) =
      .ok ⟨s, v, none, none⟩)
    ∧ (Message.parse_block (.obj [("type", .str "input"),
        ("label", .obj [("type", .str "plain_text"), ("text", .str s),
          ("emoji", .bool b)]),
        ("element", .obj [("type", .str "datepicker"), ("action_id", .str v)])]) =
      .ok (.input s (.datepicker v) none none none none))
    ∧ ((Message.parse_block (.obj [("type", .str "section"),
        ("text", .obj [("type", .str "mrkdwn"), ("text", .str s),
          ("verbatim", .bool b)])])).map Block.build =
      .ok (.obj [("type", .str "section"),
        ("text", .obj [("type", .str "mrkdwn"), ("text", .str s),
          ("verbatim", .bool b)])])) := by
  refine ⟨?_, ?_, ?_, ?_⟩
  · simp [Message.parse_block, Message.parse_header_block, Message.parse_text_object,
      jget, truthy, truthyVal, asOptBool, asOptStr, hs, TextObj.text, Except.map]
    rfl
  · simp [Message.parse_option, Message.parse_text_object, jget, truthy, truthyVal,
      asOptBool, asOptStr, asStr, hs, hv, TextObj.text, Except.map]
    rfl
  · simp [Message.parse_block, Message.parse_input_block, Message.parse_element,
      Message.parse_simple_element, Message.parse_text_object, jget, truthy, truthyVal,
      asOptBool, asOptStr, asStr, hs, hv, TextObj.text, Except.map]
    rfl
  · simp [Message.parse_block, Message.parse_section_block, Message.parse_text_object,
      jget, truthy, truthyVal, asOptBool, asOptStr, hs, Except.map, Block.build,
      TextObj.build, MrkdwnText.build, optEntry]
    rfl

/-- Witness for `c1_flag_positions` at `s = "T"`, `v = "v"`, `b = true`. -/
theorem c1_flag_positions_witness :
    (Message.parse_block (.obj [("type", .str "header"),
        ("text", .obj [("type", .str "plain_text"), ("text", .str "T"),
          ("emoji", .bool true)])]) =
      .ok (.header ⟨"T", none⟩ none))
    ∧ (Message.parse_option (.obj [("text", .obj [("type", .str "mrkdwn"),
        ("text", .str "T"), ("verbatim", .bool true)]), ("value", .str "v")]) =
      .ok ⟨"T", "v", none, none⟩)
    ∧ (Message.parse_block (.obj [("type", .str "input"),
        ("label", .obj [("type", .str "plain_text"), ("text", .str "T"),
          ("emoji", .bool true)]),
        ("element", .obj [("type", .str "datepicker"), ("action_id", .str "v")])]) =
      .ok (.input "T" (.datepicker "v") none none none none))
    ∧ ((Message.parse_block (.obj [("type", .str "section"),
        ("text", .obj [("type", .str "mrkdwn"), ("text", .str "T"),
          ("verbatim", .bool true)])])).map Block.build =
      .ok (.obj [("type", .str "section"),
        ("text", .obj [("type", .str "mrkdwn"), ("text", .str "T"),
          ("verbatim", .bool true)])])) :=
  c1_flag_positions "T" "v" (by decide) (by decide) true

/-- Claim C3 counterexample: a header block whose `text` is a mrkdwn text
object decodes successfully (to a header holding a plain text with the flag
unset) — the decoder never rejects the mrkdwn kind at this position, contrary
to the claimed `InvalidKind` failure. -/
theorem c3_counterexample :
    Message.parse_block (.obj [("type", .str "header"),
      ("text", .obj [("type", .str "mrkdwn"), ("text", .str "X")])]) =
      .ok (.header ⟨"X", none⟩ none) := rfl

/-- Claim C3 as amended: header decoding requires a truthy `text` field
(failing with the missing-field error otherwise) but accepts a text object of
either kind; a mrkdwn text is silently coerced — only its string is kept and
the resulting header text is a plain text with no flag. -/
theorem c3_header_decode (s : String) (hs : s ≠ "") :
    (Message.parse_block (.obj [("type", .str "header"),
        ("text", .obj [("type", .str "mrkdwn"), ("text", .str s)])]) =
      .ok (.header ⟨s, none⟩ none))
    ∧ (Message.parse_block (.obj [("type", .str "header")]) =
      .error (.valueError "Header block must have text")) := by
  refine ⟨?_, rfl⟩
  simp [Message.parse_block, Message.parse_header_block, Message.parse_text_object,
    jget, truthy, truthyVal, asOptBool, asOptStr, hs, TextObj.text, Except.bind, Except.map]
  rfl

/-- Witness for `c3_header_decode` at `s = "X"`. -/
theorem c3_header_decode_witness :
    (Message.parse_block (.obj [("type", .str "header"),
        ("text", .obj [("type", .str "mrkdwn"), ("text", .str "X")])]) =
      .ok (.header ⟨"X", none⟩ none))
    ∧ (Message.parse_block (.obj [("type", .str "header")]) =
      .error (.valueError "Header block must have text")) :=
  c3_header_decode "X" (by decide)

/-- Claim C4 (status: code bug): the documented `InvalidShape` failures do
occur for a non-object top level, a non-sequence `blocks`, and a non-object
block entry — but a `blocks` value of `null` escapes the
`is not None` shape guard and crashes the block loop with an unguarded
`TypeError` instead of the documented `ValueError`, contradicting the
docstring of `from_payload` ("Raises: ValueError"). -/
theorem c4_shape_errors :
    (Message.from_payload (.val (.obj [("blocks", Json.null)])) =
      .error (.typeError "NoneType object is not iterable"))
    ∧ (Message.from_payload (.val (.num 42)) =
      .error (.valueError "Payload must be a dictionary"))
    ∧ (Message.from_payload (.val (.obj [("blocks", .str "not a list")])) =
      .error (.valueError "Blocks must be a list"))
    ∧ (Message.from_payload (.val (.obj [("blocks", .arr [.str "x"])])) =
      .error (.valueError "Each block must be a dictionary")) :=
  ⟨rfl, rfl, rfl, rfl⟩

/-- Claim C5: decode is fail-fast in block order — if every block before
index `i` decodes and block `i` fails with `e`, then `from_payload` fails
with exactly `e`, regardless of a later defective block `j > i`; no partial
result is returned. -/
theorem c5_fail_fast (f : List (String × Json)) (l : List Json) (i j : Nat)
    (e e2 : PyError)
    (hb : jget f "blocks" = some (.arr l))
    (hok : ∀ k, k < i → ∀ hk : k < l.length,
      ∃ b, Message.block_entry (l.get ⟨k, hk⟩) = .ok b)
    (hi : i < l.length) (hj : j < l.length) (hij : i < j)
    (he : Message.block_entry (l.get ⟨i, hi⟩) = .error e)
    (he2 : Message.block_entry (l.get ⟨j, hj⟩) = .error e2) :
    Message.from_payload (.val (.obj f)) = .error e := by
  have hmap := mapExcept_first_error Message.block_entry l i e hok hi he
  simp only [Message.from_payload, Message.from_payload_val, hb, Option.getD, hmap]
  rfl

/-- Witness for `c5_fail_fast`: two unsupported blocks; decode reports the
first and never the second. -/
theorem c5_fail_fast_witness :
    Message.from_payload (.val (.obj [("blocks", .arr
      [.obj [("type", .str "bogus_one")], .obj [("type", .str "bogus_two")]])])) =
      .error (.valueError "Unsupported block type: bogus_one") :=
  c5_fail_fast [("blocks", .arr
      [.obj [("type", .str "bogus_one")], .obj [("type", .str "bogus_two")]])]
    [.obj [("type", .str "bogus_one")], .obj [("type", .str "bogus_two")]]
    0 1 (.valueError "Unsupported block type: bogus_one")
    (.valueError "Unsupported block type: bogus_two")
    rfl (fun k hk => absurd hk (Nat.not_lt_zero k))
    (by decide) (by decide) (by decide) rfl rfl

/-- Claim C8 (Section.create modelled from the spec, which states the
builder "allows a fully empty Section"): a section block object carrying only
its `type` tag decodes successfully to a section with text, fields and
accessory all unset. -/
theorem c8_empty_section :
    Message.parse_block (.obj [("type", .str "section")]) =
      .ok (.section none none none none) := rfl

/-- Claim C9 (status: code bug): not every failure is one of the five
documented validation errors — a section whose `text` is a bare string, and a
context entry that is not an object, both crash with an unguarded
`AttributeError` (`.get` on a non-dict), contradicting the docstring of
`from_payload` ("Raises: ValueError") and the spec's error taxonomy. -/
theorem c9_unguarded_crash :
    (Message.from_payload (.val (.obj [("blocks", .arr [.obj [("type", .str "section"),
        ("text", .str "just a string")]])])) =
      .error (.attributeError "object has no attribute get"))
    ∧ (Message.from_payload (.val (.obj [("blocks", .arr [.obj [("type", .str "context"),
        ("elements", .arr [.num 5])]])])) =
      .error (.attributeError "object has no attribute get")) :=
  ⟨rfl, rfl⟩

/-- Claim C10: a payload object with no `blocks` key (and none of the
recognized optional keys) decodes successfully to a message with an empty
block sequence and every optional top-level field unset. -/
theorem c10_no_blocks_key (f : List (String × Json))
    (hb : jget f "blocks" = none) (h1 : jget f "response_type" = none)
    (h2 : jget f "replace_original" = none) (h3 : jget f "delete_original" = none)
    (h4 : jget f "metadata" = none) :
    Message.from_payload (.val (.obj f)) =
      .ok { blocks := [], response_type := none, replace_original := none,
            delete_original := none, metadata := none } := by
  simp only [Message.from_payload, Message.from_payload_val, hb, h1, h2, h3, h4,
    mapExcept, SlackConstraints.MAX_BLOCKS_PER_MESSAGE, Option.getD]
  rfl

/-- Witness for `c10_no_blocks_key` at the empty payload object. -/
theorem c10_no_blocks_key_witness :
    Message.from_payload (.val (.obj [])) =
      .ok { blocks := [], response_type := none, replace_original := none,
            delete_original := none, metadata := none } :=
  c10_no_blocks_key [] rfl rfl rfl rfl rfl

/-- A kind-specific optional flag field is well typed for pydantic's
`Optional[bool]`: absent, `null`, or a boolean. -/
def flagOk (o : Option Json) : Prop :=
  o = none ∨ o = some .null ∨ ∃ b, o = some (.bool b)

/-- When `type` or `text` is absent or falsy, the text-object decoder fails
with the combined missing-field error. -/
theorem parse_text_object_guard (f : List (String × Json))
    (h : truthy (jget f "type") = false ∨ truthy (jget f "text") = false) :
    Message.parse_text_object (.obj f) =
      .error (.valueError "Text object must have type and text") := by
  rcases h with h | h <;> simp [Message.parse_text_object, h]

/-- Forward evaluation of the text-object decoder on a plain-text input
with a well-typed flag. -/
theorem parse_text_object_plain (f : List (String × Json)) (s : String) (e : Option Bool)
    (hty : jget f "type" = some (.str "plain_text"))
    (htx : jget f "text" = some (.str s)) (hs : s ≠ "")
    (he : asOptBool (jget f "emoji") "PlainText emoji must be a bool" = .ok e) :
    Message.parse_text_object (.obj f) = .ok (.plain ⟨s, e⟩) := by
  simp [Message.parse_text_object, hty, htx, truthy, truthyVal, hs, he, Except.map]

/-- Forward evaluation of the text-object decoder on a mrkdwn input with a
well-typed flag. -/
theorem parse_text_object_mrk (f : List (String × Json)) (s : String) (v : Option Bool)
    (hty : jget f "type" = some (.str "mrkdwn"))
    (htx : jget f "text" = some (.str s)) (hs : s ≠ "")
    (hv : asOptBool (jget f "verbatim") "MrkdwnText verbatim must be a bool" = .ok v) :
    Message.parse_text_object (.obj f) = .ok (.mrkdwn ⟨s, v⟩) := by
  simp [Message.parse_text_object, hty, htx, truthy, truthyVal, hs, hv, Except.map]

/-- An unknown non-empty `type` string with valid text fails with the
unsupported-kind error naming it. -/
theorem parse_text_object_unsupported (f : List (String × Json)) (ty : String)
    (hty : jget f "type" = some (.str ty))
    (h1 : ty ≠ "plain_text") (h2 : ty ≠ "mrkdwn") (h3 : ty ≠ "")
    (s : String) (htx : jget f "text" = some (.str s)) (hs : s ≠ "") :
    Message.parse_text_object (.obj f) =
      .error (.valueError ("Unsupported text type: " ++ ty)) := by
  simp [Message.parse_text_object, hty, htx, truthy, truthyVal, h1, h2, h3, hs]

/-- Inversion: a successful plain-text decode pins down the input fields. -/
theorem parse_text_object_ok_plain (f : List (String × Json)) (p : PlainText)
    (hp : Message.parse_text_object (.obj f) = .ok (.plain p)) :
    jget f "type" = some (.str "plain_text") ∧
    jget f "text" = some (.str p.text) ∧ p.text ≠ "" ∧
    asOptBool (jget f "emoji") "PlainText emoji must be a bool" = .ok p.emoji := by
  simp only [Message.parse_text_object] at hp
  split at hp
  case isTrue hg =>
    split at hp
    case h_1 t heq =>
      split at hp
      case isTrue h1 =>
        subst h1
        split at hp
        case h_1 s heq2 =>
          cases ha : asOptBool (jget f "emoji") "PlainText emoji must be a bool" with
          | ok e =>
            rw [ha] at hp
            simp [Except.map] at hp
            subst hp
            rw [heq2] at hg
            simp [truthy, truthyVal] at hg
            exact ⟨heq, heq2, by simpa using hg.2, by simpa using ha⟩
          | error e =>
            rw [ha] at hp
            simp [Except.map] at hp
        all_goals simp at hp
      case isFalse h1 =>
        split at hp
        case isTrue h2 =>
          subst h2
          split at hp
          case h_1 s heq2 =>
            cases ha : asOptBool (jget f "verbatim") "MrkdwnText verbatim must be a bool" with
            | ok e => rw [ha] at hp; simp [Except.map] at hp
            | error e => rw [ha] at hp; simp [Except.map] at hp
          all_goals simp at hp
        case isFalse h2 => simp at hp
    case h_2 v heq hne => simp at hp
    case h_3 heq => simp at hp
  case isFalse hg => simp at hp


/-- Inversion: a successful mrkdwn decode pins down the input fields. -/
theorem parse_text_object_ok_mrk (f : List (String × Json)) (m : MrkdwnText)
    (hp : Message.parse_text_object (.obj f) = .ok (.mrkdwn m)) :
    jget f "type" = some (.str "mrkdwn") ∧
    jget f "text" = some (.str m.text) ∧ m.text ≠ "" ∧
    asOptBool (jget f "verbatim") "MrkdwnText verbatim must be a bool" = .ok m.verbatim := by
  simp only [Message.parse_text_object] at hp
  split at hp
  case isTrue hg =>
    split at hp
    case h_1 t heq =>
      split at hp
      case isTrue h1 =>
        subst h1
        split at hp
        case h_1 s heq2 =>
          cases ha : asOptBool (jget f "emoji") "PlainText emoji must be a bool" with
          | ok e => rw [ha] at hp; simp [Except.map] at hp
          | error e => rw [ha] at hp; simp [Except.map] at hp
        all_goals simp at hp
      case isFalse h1 =>
        split at hp
        case isTrue h2 =>
          subst h2
          split at hp
          case h_1 s heq2 =>
            cases ha : asOptBool (jget f "verbatim") "MrkdwnText verbatim must be a bool" with
            | ok e =>
              rw [ha] at hp
              simp [Except.map] at hp
              subst hp
              rw [heq2] at hg
              simp [truthy, truthyVal] at hg
              exact ⟨heq, heq2, by simpa using hg.2, by simpa using ha⟩
            | error e =>
              rw [ha] at hp
              simp [Except.map] at hp
          all_goals simp at hp
        case isFalse h2 => simp at hp
    case h_2 v heq hne => simp at hp
    case h_3 heq => simp at hp
  case isFalse hg => simp at hp

/-- Claim C6: with well-typed flag fields, the text-object decoder succeeds
exactly when `type` is `plain_text` or `mrkdwn` and `text` is a non-empty
string; a non-empty unknown `type` string (with valid text) fails with the
unsupported-kind error naming it; a missing or empty `text` fails with the
missing-field error; and an absent kind-specific flag decodes to unset. -/
theorem c6_text_object (f : List (String × Json))
    (hem : flagOk (jget f "emoji")) (hvb : flagOk (jget f "verbatim")) :
    ((∃ t, Message.parse_text_object (.obj f) = .ok t) ↔
      ((jget f "type" = some (.str "plain_text") ∨ jget f "type" = some (.str "mrkdwn")) ∧
        ∃ s, jget f "text" = some (.str s) ∧ s ≠ ""))
    ∧ (∀ ty, jget f "type" = some (.str ty) → ty ≠ "plain_text" → ty ≠ "mrkdwn" →
        ty ≠ "" → (∃ s, jget f "text" = some (.str s) ∧ s ≠ "") →
        Message.parse_text_object (.obj f) =
          .error (.valueError ("Unsupported text type: " ++ ty)))
    ∧ ((jget f "text" = none ∨ jget f "text" = some (.str "")) →
        Message.parse_text_object (.obj f) =
          .error (.valueError "Text object must have type and text"))
    ∧ (jget f "emoji" = none →
        ∀ p, Message.parse_text_object (.obj f) = .ok (.plain p) → p.emoji = none)
    ∧ (jget f "verbatim" = none →
        ∀ m, Message.parse_text_object (.obj f) = .ok (.mrkdwn m) → m.verbatim = none) := by
  have hemok : ∃ e, asOptBool (jget f "emoji") "PlainText emoji must be a bool" = .ok e := by
    rcases hem with h | h | ⟨b, h⟩
    · exact ⟨none, by simp [h, asOptBool]⟩
    · exact ⟨none, by simp [h, asOptBool]⟩
    · exact ⟨some b, by simp [h, asOptBool]⟩
  have hvbok : ∃ v, asOptBool (jget f "verbatim") "MrkdwnText verbatim must be a bool" = .ok v := by
    rcases hvb with h | h | ⟨b, h⟩
    · exact ⟨none, by simp [h, asOptBool]⟩
    · exact ⟨none, by simp [h, asOptBool]⟩
    · exact ⟨some b, by simp [h, asOptBool]⟩
  refine ⟨?_, ?_, ?_, ?_, ?_⟩
  · constructor
    · rintro ⟨t, ht⟩
      cases t with
      | plain p =>
        obtain ⟨h1, h2, h3, _⟩ := parse_text_object_ok_plain f p ht
        exact ⟨Or.inl h1, p.text, h2, h3⟩
      | mrkdwn m =>
        obtain ⟨h1, h2, h3, _⟩ := parse_text_object_ok_mrk f m ht
        exact ⟨Or.inr h1, m.text, h2, h3⟩
    · rintro ⟨hty | hty, s, htx, hs⟩
      · obtain ⟨e, he⟩ := hemok
        exact ⟨_, parse_text_object_plain f s e hty htx hs he⟩
      · obtain ⟨v, hv⟩ := hvbok
        exact ⟨_, parse_text_object_mrk f s v hty htx hs hv⟩
  · rintro ty hty h1 h2 h3 ⟨s, htx, hs⟩
    exact parse_text_object_unsupported f ty hty h1 h2 h3 s htx hs
  · intro h
    refine parse_text_object_guard f (Or.inr ?_)
    rcases h with h | h <;> simp [h, truthy, truthyVal]
  · intro hemn p hp
    obtain ⟨_, _, _, h4⟩ := parse_text_object_ok_plain f p hp
    rw [hemn] at h4
    simp [asOptBool] at h4
    first
    | exact h4
    | exact h4.symm
  · intro hvbn m hm
    obtain ⟨_, _, _, h4⟩ := parse_text_object_ok_mrk f m hm
    rw [hvbn] at h4
    simp [asOptBool] at h4
    first
    | exact h4
    | exact h4.symm

/-- Witness for `c6_text_object`: an unknown kind is reported by name, and a
missing `text` gives the missing-field error. -/
theorem c6_text_object_witness :
    (Message.parse_text_object (.obj [("type", .str "unknown_kind"),
        ("text", .str "hi")]) =
      .error (.valueError ("Unsupported text type: " ++ "unknown_kind")))
    ∧ (Message.parse_text_object (.obj [("type", .str "plain_text")]) =
      .error (.valueError "Text object must have type and text")) :=
  ⟨(c6_text_object [("type", .str "unknown_kind"), ("text", .str "hi")]
      (Or.inl rfl) (Or.inl rfl)).2.1 "unknown_kind" rfl (by decide) (by decide)
      (by decide) ⟨"hi", rfl, by decide⟩,
   (c6_text_object [("type", .str "plain_text")]
      (Or.inl rfl) (Or.inl rfl)).2.2.1 (Or.inl rfl)⟩


/-- Claim C7: decoding a well-formed JSON string yields exactly the result of
decoding its parsed value, and a malformed string fails with the
`Invalid JSON payload` error carrying the parser diagnostic. -/
theorem c7_string_form (s : String) :
    (∀ v, json_loads s = .ok v →
      Message.from_payload (.str s) = Message.from_payload (.val v))
    ∧ (∀ e, json_loads s = .error e →
      Message.from_payload (.str s) =
        .error (.valueError ("Invalid JSON payload: " ++ e))) := by
  constructor
  · intro v hv; simp [Message.from_payload, hv]
  · intro e he; simp [Message.from_payload, he]

/-- Witness for `c7_string_form`: a parsed empty-blocks document and a
malformed document. -/
theorem c7_string_form_witness :
    (Message.from_payload (.str "\x7b\"blocks\": []\x7d") =
      Message.from_payload (.val (.obj [("blocks", .arr [])])))
    ∧ (Message.from_payload (.str "not json") =
      .error (.valueError ("Invalid JSON payload: " ++ "Expecting value"))) :=
  ⟨(c7_string_form "\x7b\"blocks\": []\x7d").1 (.obj [("blocks", .arr [])]) rfl,
   (c7_string_form "not json").2 "Expecting value" rfl⟩

end Slack
